import Mathlib

/-!
Verification development for the budget-aware OpenAI LLM wrapper
(`evadb/functions/llms/openai.py`, class `OpenAILLM`).

The module is embedded shallowly:
  * the tokenizer (`tiktoken`) is an explicit parameter
    `enc : String → String → Nat` mapping (model identifier, text) to a
    token count;
  * the per-model price table (`BaseLLM.get_model_stats`, defined outside
    this file's source) is an explicit parameter
    `stats : String → ModelStats`;
  * the chat-completion endpoint (together with its retry wrapper) is an
    explicit total oracle `complete : Invocation → String` returning the
    response text for a request;
  * Python floats are modelled as exact rationals (`Rat`);
  * Python runtime errors (IndexError, ValueError, TypeError,
    AssertionError and the kwargs-validation error) are modelled with an
    `Except PyError` result;
  * the aliasing between the module-level `_DEFAULT_PARAMS["messages"]`
    list and a session's `model_params["messages"]` (a shallow dict copy
    shares the list object) is modelled explicitly by a `World` holding
    the module-level list plus a flag saying whether the session's
    message list is that shared list or a caller-supplied one.
-/

set_option allowUnsafeReducibility true
attribute [semireducible] Rat.add Rat.mul Rat.sub

/-- Python runtime errors that the embedded code can raise. -/
inductive PyError where
  | indexError
  | valueError
  | typeError
  | assertionError
  | validationError
deriving DecidableEq, Repr

/-- `MODEL_CHOICES` from the source: the ordered tier list
(the commented-out entries of the source are omitted, as in the source). -/
def MODEL_CHOICES : List String :=
  ["gpt-4",
   "gpt-4-0314",
   "gpt-3.5-turbo-16k",
   "gpt-3.5-turbo-16k-0613",
   "gpt-3.5-turbo",
   "gpt-3.5-turbo-0301"]

/-- `MODEL_CHOICES[-1]` in Python: the last tier of the list. -/
def MODEL_CHOICES_last : String := MODEL_CHOICES.getLastD ""

/-- `DEFAULT_PROMPT` from the source. -/
def DEFAULT_PROMPT : String :=
  "You are a helpful assistant that accomplishes user tasks."

/-- Modelled from the spec: the entry of the external price table
(`BaseLLM.get_model_stats`, not part of this file's source) for one model:
input/output cost per token. -/
structure ModelStats where
  input_cost_per_token : Rat
  output_cost_per_token : Rat
deriving DecidableEq, Repr

/-- The part of `self.model_params` that `get_cost` reads. -/
structure ParamsView where
  model : String
  max_tokens : Nat
deriving DecidableEq, Repr

/-- A chat message dict `{"role": ..., "content": ...}`. -/
structure Message where
  role : String
  content : String
deriving DecidableEq, Repr

/-- `OpenAILLM.get_cost`: token counts and dollar cost of one request.
`enc model text` stands for `len(tiktoken.encoding_for_model(model).encode(text))`
and `stats` for `self.get_model_stats`. -/
def get_cost (enc : String → String → Nat) (stats : String → ModelStats)
    (p : ParamsView) (prompt : Option String) (query content : String)
    (response : Option String) : (Nat × Nat) × Rat :=
  let num_prompt_tokens : Nat :=
    match prompt with
    | none => enc p.model DEFAULT_PROMPT
    | some pr => enc p.model pr
  let num_query_tokens : Nat := enc p.model query
  let num_content_tokens : Nat := enc p.model content
  let num_response_tokens : Nat :=
    match response with
    | none => p.max_tokens
    | some r => enc p.model r
  let model_stats := stats p.model
  let token_consumed : Nat × Nat :=
    (num_prompt_tokens + num_query_tokens + num_content_tokens, num_response_tokens)
  let dollar_cost : Rat :=
    model_stats.input_cost_per_token * (token_consumed.1 : Rat)
      + model_stats.output_cost_per_token * (token_consumed.2 : Rat)
  (token_consumed, dollar_cost)

/-- `OpenAILLM.get_max_cost`: `get_cost` with `response=None`. -/
def get_max_cost (enc : String → String → Nat) (stats : String → ModelStats)
    (p : ParamsView) (prompt : Option String) (query content : String) :
    (Nat × Nat) × Rat :=
  get_cost enc stats p prompt query content none

/-- Concrete tokenizer used for witnesses: one token per character. -/
def enc0 : String → String → Nat := fun _ t => t.length

/-- Concrete price table used for witnesses: 1 dollar per input token,
2 dollars per output token, for every model. -/
def stats0 : String → ModelStats := fun _ => ⟨1, 2⟩

/-- Python list indexing `l[i]` for nonnegative `i`: raises IndexError
when out of range. -/
def pyGet (l : List String) (i : Nat) : Except PyError String :=
  match l.get? i with
  | some x => .ok x
  | none => .error .indexError

/-- Total view of `l[i]` (meaningful when `i` is in range). -/
def getAt (l : List String) (i : Nat) : String := (l.get? i).getD ""

/-- The inner loop of `OpenAILLM.model_selection`:
`for i in range(idx+1, len(queries)): model := MODEL_CHOICES[-1];
dollar_cost += get_max_cost(None, queries[i], contents[i])[1]`,
phrased over the suffixes `queries[idx+1:]` and `contents[idx+1:]`;
`contents[i]` raises IndexError when `contents` runs out before
`queries` does. -/
def sumRestMax (enc : String → String → Nat) (stats : String → ModelStats)
    (maxTok : Nat) : List String → List String → Except PyError Rat
  | [], _ => .ok 0
  | _ :: _, [] => .error .indexError
  | q :: qs, c :: cs =>
    match sumRestMax enc stats maxTok qs cs with
    | .error e => .error e
    | .ok r =>
      .ok ((get_max_cost enc stats ⟨MODEL_CHOICES_last, maxTok⟩ none q c).2 + r)

/-- Modelled from the spec: "sum over all later positions `j` of the
worst-case cost of query `j` priced at the most expensive tier" — the pure
value of `sumRestMax` on a well-formed suffix pair. -/
def restCostSum (enc : String → String → Nat) (stats : String → ModelStats)
    (maxTok : Nat) : List String → List String → Rat
  | [], _ => 0
  | _ :: _, [] => 0
  | q :: qs, c :: cs =>
    (get_max_cost enc stats ⟨MODEL_CHOICES_last, maxTok⟩ none q c).2
      + restCostSum enc stats maxTok qs cs

/-- The `for model in MODEL_CHOICES` loop of `OpenAILLM.model_selection`.
The second argument of the pair threads the mutable
`self.model_params["model"]` field; the result pairs the returned tier
with the field's final value. -/
def msGo (enc : String → String → Nat) (stats : String → ModelStats)
    (maxTok : Nat) (prompt : Option String) (query content : String)
    (queries contents : List String) (idx : Nat) (budget : Rat) :
    List String → String → Except PyError (String × String)
  | [], m => .ok (MODEL_CHOICES_last, m)
  | choice :: rest, _ =>
    let dollar_cost := (get_max_cost enc stats ⟨choice, maxTok⟩ prompt query content).2
    match sumRestMax enc stats maxTok (queries.drop (idx + 1)) (contents.drop (idx + 1)) with
    | .error e => .error e
    | .ok r =>
      let mf := if idx + 1 < queries.length then MODEL_CHOICES_last else choice
      if 0 ≤ budget - (dollar_cost + r) then .ok (choice, mf)
      else msGo enc stats maxTok prompt query content queries contents idx budget rest mf

/-- `OpenAILLM.model_selection`. `model0` is the value of
`self.model_params["model"]` on entry; the `cost` argument is accepted and
ignored, as in the source. The result pairs the selected tier with the
final value of the `model` field. -/
def model_selection (enc : String → String → Nat) (stats : String → ModelStats)
    (maxTok : Nat) (model0 : String) (idx : Nat) (prompt : Option String)
    (queries contents : List String) (cost budget : Rat) :
    Except PyError (String × String) :=
  match pyGet queries idx with
  | .error e => .error e
  | .ok query =>
    match pyGet contents idx with
    | .error e => .error e
    | .ok content =>
      msGo enc stats maxTok prompt query content queries contents idx budget
        MODEL_CHOICES model0

/-- Modelled from the spec: "the first tier, in the declared scan order,
that passes" — the first element of a list satisfying a test. -/
def firstPassing (pass : String → Bool) : List String → Option String
  | [] => none
  | m :: ms =>
    match pass m with
    | true => some m
    | false => firstPassing pass ms

/-- Modelled from the spec: the selection policy as §4.2 words it — the
first tier `m`, scanning the tier list in its declared (per the spec,
ascending-price) order, such that
`budget - (maxCost(m, current) + restCost) ≥ 0`; the last (per the spec,
most expensive) tier when no tier passes. -/
def specSelect (enc : String → String → Nat) (stats : String → ModelStats)
    (maxTok : Nat) (prompt : Option String) (queries contents : List String)
    (idx : Nat) (budget : Rat) : String :=
  (firstPassing (fun m =>
      decide (0 ≤ budget -
        ((get_max_cost enc stats ⟨m, maxTok⟩ prompt (getAt queries idx)
            (getAt contents idx)).2
          + restCostSum enc stats maxTok (queries.drop (idx + 1))
              (contents.drop (idx + 1))))) MODEL_CHOICES).getD MODEL_CHOICES_last

/-- The session's `model_params` dict together with the aliasing of its
`"messages"` entry: `setup` builds `model_params` as the shallow copy
`{**_DEFAULT_PARAMS, **kwargs}`, so without a `messages` override the
session's message list IS the module-level `_DEFAULT_PARAMS["messages"]`
list object (`usesDefaultList = true`); with an override it is the
caller-supplied list (`ownMsgs`). -/
structure SessionParams where
  model : String
  temperature : Rat
  max_tokens : Nat
  usesDefaultList : Bool
  ownMsgs : List Message
deriving DecidableEq, Repr

/-- The mutable state visible to one session: the module-level default
message list plus the session's parameters. -/
structure World where
  defaultMsgs : List Message
  sess : SessionParams
deriving DecidableEq, Repr

/-- The current contents of `self.model_params["messages"]`. -/
def getMessages (w : World) : List Message :=
  if w.sess.usesDefaultList then w.defaultMsgs else w.sess.ownMsgs

/-- In-place `append`/`extend` on `self.model_params["messages"]`: mutates
the module-level list when the session aliases it. -/
def appendMessages (w : World) (ms : List Message) : World :=
  if w.sess.usesDefaultList then { w with defaultMsgs := w.defaultMsgs ++ ms }
  else { w with sess := { w.sess with ownMsgs := w.sess.ownMsgs ++ ms } }

/-- `self.model_params["model"] = m`. -/
def setModel (w : World) (m : String) : World :=
  { w with sess := { w.sess with model := m } }

/-- The keyword arguments accepted by `OpenAILLM.setup`: the recognized
override keys (typed), plus any unrecognized key names in `extraKeys`
(modelled from the spec: `validate_kwargs` — not part of this file's
source — rejects any key outside {model, temperature, max_tokens,
messages}). -/
structure SetupKwargs where
  model : Option String
  temperature : Option Rat
  max_tokens : Option Nat
  messages : Option (List Message)
  extraKeys : List String
deriving DecidableEq, Repr

/-- `OpenAILLM.setup`: resolves the API key from the explicit parameter
with environment fallback, asserts it non-empty (before the provider
client is created), validates the kwargs, and builds `model_params` as
`{**_DEFAULT_PARAMS, **kwargs}` over the module-level default message
list `moduleDefaultMsgs`. -/
def setup (openai_api_key : String) (env_api_key : Option String)
    (kwargs : SetupKwargs) (moduleDefaultMsgs : List Message) :
    Except PyError World :=
  let api_key := if openai_api_key.length = 0 then env_api_key.getD "" else openai_api_key
  if api_key.length = 0 then .error .assertionError
  else if kwargs.extraKeys ≠ [] then .error .validationError
  else .ok ⟨moduleDefaultMsgs,
    ⟨kwargs.model.getD "gpt-3.5-turbo",
     kwargs.temperature.getD 0,
     kwargs.max_tokens.getD 1000,
     kwargs.messages.isNone,
     kwargs.messages.getD []⟩⟩

/-- Whether `setup`'s control flow reaches `OpenAI(api_key=...)` (the
provider client construction): true exactly when the credential assertion
passes. -/
def setupReachesClient (openai_api_key : String) (env_api_key : Option String) : Bool :=
  decide ((if openai_api_key.length = 0 then env_api_key.getD "" else openai_api_key).length ≠ 0)

/-- Whitespace recognized by Python `int(str)` stripping (ASCII subset). -/
def isWsChar (c : Char) : Bool := c = ' ' || c = '\t' || c = '\n' || c = '\r'

/-- Strips whitespace from both ends of a char list. -/
def stripBoth (l : List Char) : List Char :=
  ((l.dropWhile isWsChar).reverse.dropWhile isWsChar).reverse

/-- Digit string to number, most significant first. -/
def digitsToNat (l : List Char) : Nat :=
  l.foldl (fun acc c => acc * 10 + (c.toNat - '0'.toNat)) 0

/-- Python `int(s)` on a stripped char list: optional sign then a
non-empty run of digits; anything else (e.g. `"0.0001"`) raises
ValueError, modelled as `none`. -/
def pyIntCore : List Char → Option Int
  | [] => none
  | '+' :: rest =>
    if rest.isEmpty then none
    else if rest.all Char.isDigit then some (digitsToNat rest) else none
  | '-' :: rest =>
    if rest.isEmpty then none
    else if rest.all Char.isDigit then some (-(digitsToNat rest : Int)) else none
  | l => if l.all Char.isDigit then some (digitsToNat l) else none

/-- Python `int(s)` for a string. -/
def pyInt (s : String) : Option Int := pyIntCore (stripBoth s.toList)

/-- The request snapshot passed to the chat-completion endpoint:
`completion_with_backoff(**self.model_params)`. -/
structure Invocation where
  model : String
  temperature : Rat
  max_tokens : Nat
  messages : List Message
deriving DecidableEq, Repr

/-- The loop state of `OpenAILLM.generate`: the session state, the
running `budget` and `cost`, the accumulating `results` and `models`
lists, plus (for specification purposes) the trace of provider
invocations and of the realized per-query costs. -/
structure GenState where
  world : World
  budget : Rat
  cost : Rat
  results : List String
  models : List String
  invocations : List Invocation
  spends : List Rat
deriving DecidableEq, Repr

/-- One iteration of the `for query, content, idx in zip(...)` loop of
`OpenAILLM.generate`: select a tier, append the system and user messages,
invoke the provider (`complete`), and account the realized cost. -/
def genStep (enc : String → String → Nat) (stats : String → ModelStats)
    (complete : Invocation → String) (prompt : Option String)
    (queries contents : List String) (idx : Nat) (q c : String)
    (st : GenState) : Except PyError GenState :=
  let def_sys_prompt_message : Message := ⟨"system", prompt.getD DEFAULT_PROMPT⟩
  match model_selection enc stats st.world.sess.max_tokens st.world.sess.model
      idx prompt queries contents st.cost st.budget with
  | .error e => .error e
  | .ok sel =>
    let wsel := setModel st.world sel.2
    let w1 := setModel wsel sel.1
    let w2 := appendMessages w1
      [def_sys_prompt_message,
       ⟨"user", "Here is some context : " ++ c⟩,
       ⟨"user", "Complete the following task: " ++ q⟩]
    let inv : Invocation := ⟨w2.sess.model, w2.sess.temperature, w2.sess.max_tokens, getMessages w2⟩
    let answer := complete inv
    let cost_query := (get_cost enc stats ⟨w2.sess.model, w2.sess.max_tokens⟩ prompt q c (some answer)).2
    .ok ⟨w2, st.budget - cost_query, st.cost + cost_query,
         st.results ++ [answer], st.models ++ [sel.1],
         st.invocations ++ [inv], st.spends ++ [cost_query]⟩

/-- The query loop of `OpenAILLM.generate` over the zipped
(query, content) pairs, carrying the position index. -/
def genLoop (enc : String → String → Nat) (stats : String → ModelStats)
    (complete : Invocation → String) (prompt : Option String)
    (queries contents : List String) :
    List (String × String) → Nat → GenState → Except PyError GenState
  | [], _, st => .ok st
  | (q, c) :: rest, idx, st =>
    match genStep enc stats complete prompt queries contents idx q c st with
    | .error e => .error e
    | .ok st1 => genLoop enc stats complete prompt queries contents rest (idx + 1) st1

/-- `OpenAILLM.generate`: parses the budget with Python `int` from the
`OPENAI_BUDGET` environment value (`none` = variable unset, giving
`int(None)`, a TypeError), then runs the per-query loop over
`zip(queries, contents, range(len(queries)))` — which truncates to the
shorter of `queries` and `contents`. -/
def generate (enc : String → String → Nat) (stats : String → ModelStats)
    (complete : Invocation → String) (w : World) (envBudget : Option String)
    (queries contents : List String) (prompt : Option String) :
    Except PyError (List String × List String × GenState) :=
  match envBudget with
  | none => .error .typeError
  | some s =>
    match pyInt s with
    | none => .error .valueError
    | some b =>
      match genLoop enc stats complete prompt queries contents
          (queries.zip contents) 0 ⟨w, (b : Rat), 0, [], [], [], []⟩ with
      | .error e => .error e
      | .ok st => .ok (st.results, st.models, st)

/-- Concrete provider oracle used for witnesses: always answers "ans". -/
def complete0 : Invocation → String := fun _ => "ans"

/-- Concrete fresh session state used for witnesses: default parameters,
message list aliasing the (empty) module-level default list. -/
def w0 : World := ⟨[], ⟨"gpt-3.5-turbo", 0, 1000, true, []⟩⟩

/-- Concrete kwargs with no overrides and no unrecognized keys. -/
def kw0 : SetupKwargs := ⟨none, none, none, none, []⟩

/-- Concrete loop state used for witnesses. -/
def st0 : GenState := ⟨w0, 1000, 0, [], [], [], []⟩

/-- Discriminator for successful runs. -/
def exceptIsOk (e : Except PyError (List String × List String × GenState)) : Bool :=
  match e with
  | .ok _ => true
  | .error _ => false

/-- Concrete one-query run for the message-persistence counterexample. -/
def c5run : Except PyError (List String × List String × GenState) :=
  generate enc0 stats0 complete0 w0 (some "1000") ["q1"] ["c1"] (some "p")

/-- Final loop state of `c5run`. -/
def c5st : GenState :=
  match c5run with
  | .ok r => r.2.2
  | .error _ => st0

/-- Final session state of `c5run`: the state a second `generate` call
starts from. -/
def c5world : World := c5st.world

/-- Concrete one-query run for the message-persistence amended witness. -/
def c5arun : Except PyError (List String × List String × GenState) :=
  generate enc0 stats0 complete0 w0 (some "1000") ["q2"] ["c2"] (some "p")

/-- Results of `c5arun`. -/
def c5ares : List String :=
  match c5arun with
  | .ok r => r.1
  | .error _ => []

/-- Per-query models of `c5arun`. -/
def c5amodels : List String :=
  match c5arun with
  | .ok r => r.2.1
  | .error _ => []

/-- Final loop state of `c5arun`. -/
def c5ast : GenState :=
  match c5arun with
  | .ok r => r.2.2
  | .error _ => st0

/-- A fresh session set up (no messages override) over the module-level
default list as `c5arun` left it. -/
def c5aw2 : World :=
  match setup "k" none kw0 c5ast.world.defaultMsgs with
  | .ok w => w
  | .error _ => w0

/-- Concrete one-query run for the budget-accounting witness. -/
def c8run : Except PyError (List String × List String × GenState) :=
  generate enc0 stats0 complete0 w0 (some "1000") ["q1"] ["c1"] none

/-- Results of `c8run`. -/
def c8res : List String :=
  match c8run with
  | .ok r => r.1
  | .error _ => []

/-- Per-query models of `c8run`. -/
def c8models : List String :=
  match c8run with
  | .ok r => r.2.1
  | .error _ => []

/-- Final loop state of `c8run`. -/
def c8st : GenState :=
  match c8run with
  | .ok r => r.2.2
  | .error _ => st0

/-- Concrete single step for the message-append witness. -/
def c6run : Except PyError GenState :=
  genStep enc0 stats0 complete0 (some "p") ["q1"] ["c1"] 0 "q1" "c1" st0

/-- Resulting state of `c6run`. -/
def c6st : GenState :=
  match c6run with
  | .ok s => s
  | .error _ => st0

lemma pyGet_ok (l : List String) (i : Nat) (h : i < l.length) :
    pyGet l i = .ok (getAt l i) := by
  unfold pyGet getAt
  cases hg : l.get? i with
  | none =>
    rw [List.get?_eq_none] at hg
    omega
  | some x => rfl

lemma sumRestMax_eq_restCostSum (enc : String → String → Nat)
    (stats : String → ModelStats) (maxTok : Nat) :
    ∀ qs cs : List String, qs.length ≤ cs.length →
      sumRestMax enc stats maxTok qs cs = .ok (restCostSum enc stats maxTok qs cs) := by
  intro qs
  induction qs with
  | nil => intro cs _; rfl
  | cons q qs ih =>
    intro cs hlen
    cases cs with
    | nil => simp at hlen
    | cons c cs =>
      simp only [List.length_cons, Nat.add_le_add_iff_right] at hlen
      unfold sumRestMax restCostSum
      rw [ih cs hlen]

lemma msGo_eq_firstPassing (enc : String → String → Nat) (stats : String → ModelStats)
    (maxTok : Nat) (prompt : Option String) (query content : String)
    (queries contents : List String) (idx : Nat) (budget : Rat) (r : Rat)
    (hr : sumRestMax enc stats maxTok (queries.drop (idx + 1))
            (contents.drop (idx + 1)) = .ok r) :
    ∀ (cs : List String) (m0 : String), ∃ mf,
      msGo enc stats maxTok prompt query content queries contents idx budget cs m0 =
        .ok (((firstPassing (fun m =>
          decide (0 ≤ budget -
            ((get_max_cost enc stats ⟨m, maxTok⟩ prompt query content).2 + r))) cs).getD
          MODEL_CHOICES_last), mf) := by
  intro cs
  induction cs with
  | nil => intro m0; exact ⟨m0, rfl⟩
  | cons choice rest ih =>
    intro m0
    unfold msGo firstPassing
    rw [hr]
    dsimp only
    by_cases h : 0 ≤ budget -
        ((get_max_cost enc stats ⟨choice, maxTok⟩ prompt query content).2 + r)
    · refine ⟨if idx + 1 < queries.length then MODEL_CHOICES_last else choice, ?_⟩
      rw [if_pos h, decide_eq_true h]
      rfl
    · obtain ⟨mf, hmf⟩ := ih (if idx + 1 < queries.length then MODEL_CHOICES_last else choice)
      refine ⟨mf, ?_⟩
      rw [if_neg h, decide_eq_false h]
      exact hmf

lemma firstPassing_mem (p : String → Bool) :
    ∀ (l : List String) (x : String), firstPassing p l = some x → x ∈ l := by
  intro l
  induction l with
  | nil => intro x hx; cases hx
  | cons m ms ih =>
    intro x hx
    unfold firstPassing at hx
    revert hx
    cases p m with
    | true => intro hx; cases hx; exact List.mem_cons_self _ _
    | false => intro hx; exact List.mem_cons_of_mem _ (ih x hx)

lemma find_getD_mem (p : String → Bool) :
    ((firstPassing p MODEL_CHOICES).getD MODEL_CHOICES_last) ∈ MODEL_CHOICES := by
  cases hf : firstPassing p MODEL_CHOICES with
  | none =>
    simp only [Option.getD]
    decide
  | some m =>
    simp only [Option.getD]
    exact firstPassing_mem p MODEL_CHOICES m hf

/-- C1: on a well-formed batch, `model_selection` returns exactly the
first tier of the tier list (per the spec, ascending price order) for
which `budget - (maxCost of the current query at that tier + sum of the
max costs of all later queries at the last, most expensive, tier) ≥ 0`,
and the last tier when none passes; the result is always a member of
`MODEL_CHOICES`, hence never null, so the budget-exceeded assertion in
`generate` never fires. -/
theorem model_selection_spec (enc : String → String → Nat)
    (stats : String → ModelStats) (maxTok : Nat) (model0 : String) (idx : Nat)
    (prompt : Option String) (queries contents : List String) (cost budget : Rat)
    (hq : idx < queries.length) (hlen : queries.length ≤ contents.length) :
    (∃ mf, model_selection enc stats maxTok model0 idx prompt queries contents cost budget =
      .ok (specSelect enc stats maxTok prompt queries contents idx budget, mf))
    ∧ specSelect enc stats maxTok prompt queries contents idx budget ∈ MODEL_CHOICES := by
  have hc : idx < contents.length := lt_of_lt_of_le hq hlen
  have hdrop : (queries.drop (idx + 1)).length ≤ (contents.drop (idx + 1)).length := by
    simp only [List.length_drop]
    omega
  have hr := sumRestMax_eq_restCostSum enc stats maxTok
    (queries.drop (idx + 1)) (contents.drop (idx + 1)) hdrop
  constructor
  · obtain ⟨mf, hmf⟩ := msGo_eq_firstPassing enc stats maxTok prompt (getAt queries idx)
      (getAt contents idx) queries contents idx budget _ hr MODEL_CHOICES model0
    refine ⟨mf, ?_⟩
    unfold model_selection
    rw [pyGet_ok queries idx hq, pyGet_ok contents idx hc]
    exact hmf
  · exact find_getD_mem _

/-- Witness for C1 at a concrete input. -/
theorem model_selection_spec_witness :
    0 < (["a", "b"] : List String).length
    ∧ (["a", "b"] : List String).length ≤ (["x", "y"] : List String).length
    ∧ ((∃ mf, model_selection enc0 stats0 1000 "m" 0 none ["a", "b"] ["x", "y"] 0 7 =
        .ok (specSelect enc0 stats0 1000 none ["a", "b"] ["x", "y"] 0 7, mf))
      ∧ specSelect enc0 stats0 1000 none ["a", "b"] ["x", "y"] 0 7 ∈ MODEL_CHOICES) :=
  ⟨by decide, by decide,
   model_selection_spec enc0 stats0 1000 "m" 0 none ["a", "b"] ["x", "y"] 0 7
     (by decide) (by decide)⟩

lemma msGo_snd_last (enc : String → String → Nat) (stats : String → ModelStats)
    (maxTok : Nat) (prompt : Option String) (query content : String)
    (queries contents : List String) (idx : Nat) (budget : Rat)
    (h1 : idx + 1 < queries.length) :
    ∀ (cs : List String) (m0 : String) (p : String × String),
      msGo enc stats maxTok prompt query content queries contents idx budget cs m0 = .ok p →
      p.2 = MODEL_CHOICES_last ∨ (cs = [] ∧ p.2 = m0) := by
  intro cs
  induction cs with
  | nil =>
    intro m0 p hp
    unfold msGo at hp
    cases hp
    exact Or.inr ⟨rfl, rfl⟩
  | cons choice rest ih =>
    intro m0 p hp
    unfold msGo at hp
    revert hp
    cases hsum : sumRestMax enc stats maxTok (queries.drop (idx + 1))
        (contents.drop (idx + 1)) with
    | error e => intro hp; cases hp
    | ok r =>
      simp only [if_pos h1]
      by_cases h : 0 ≤ budget -
          ((get_max_cost enc stats ⟨choice, maxTok⟩ prompt query content).2 + r)
      · rw [if_pos h]
        intro hp
        cases hp
        exact Or.inl rfl
      · rw [if_neg h]
        intro hp
        rcases ih MODEL_CHOICES_last p hp with hl | ⟨_, hr2⟩
        · exact Or.inl hl
        · exact Or.inl hr2

/-- C7: whenever the position has at least one subsequent query, the
final value of the mutated `model_params["model"]` field after
`model_selection` is the last tier of `MODEL_CHOICES` (per the spec the
most expensive one), regardless of which tier was returned. -/
theorem model_selection_mutates_model_field (enc : String → String → Nat)
    (stats : String → ModelStats) (maxTok : Nat) (model0 : String) (idx : Nat)
    (prompt : Option String) (queries contents : List String) (cost budget : Rat)
    (h1 : idx + 1 < queries.length) :
    ∀ p : String × String,
      model_selection enc stats maxTok model0 idx prompt queries contents cost budget =
        .ok p → p.2 = MODEL_CHOICES_last := by
  intro p hp
  unfold model_selection at hp
  revert hp
  cases pyGet queries idx with
  | error e => intro hp; cases hp
  | ok query =>
    cases pyGet contents idx with
    | error e => intro hp; cases hp
    | ok content =>
      intro hp
      rcases msGo_snd_last enc stats maxTok prompt query content queries contents
        idx budget h1 MODEL_CHOICES model0 p hp with hl | ⟨hMC, _⟩
      · exact hl
      · exact absurd hMC (by decide)

/-- Witness for C7 at a concrete input. -/
theorem model_selection_mutates_model_field_witness :
    0 + 1 < (["a", "b"] : List String).length
    ∧ ("gpt-4", "gpt-3.5-turbo-0301").2 = MODEL_CHOICES_last :=
  ⟨by decide,
   model_selection_mutates_model_field enc0 stats0 1000 "m" 0 none
     ["a", "b"] ["x", "y"] 0 1000000 (by decide)
     ("gpt-4", "gpt-3.5-turbo-0301") (by rfl)⟩

/-- C2: `get_cost` returns input count = prompt tokens (default system
prompt when the prompt is absent) + query tokens + content tokens, output
count = response tokens when a response is given and `max_tokens`
otherwise, and dollar cost = input count × input price + output count ×
output price; `get_max_cost` equals `get_cost` with the response omitted. -/
theorem get_cost_spec (enc : String → String → Nat) (stats : String → ModelStats)
    (p : ParamsView) (prompt : Option String) (query content : String)
    (response : Option String) :
    (get_cost enc stats p prompt query content response).1.1 =
      (match prompt with
       | none => enc p.model DEFAULT_PROMPT
       | some pr => enc p.model pr) + enc p.model query + enc p.model content
    ∧ (get_cost enc stats p prompt query content response).1.2 =
      (match response with
       | none => p.max_tokens
       | some r => enc p.model r)
    ∧ (get_cost enc stats p prompt query content response).2 =
      (stats p.model).input_cost_per_token
          * ((get_cost enc stats p prompt query content response).1.1 : Rat)
        + (stats p.model).output_cost_per_token
          * ((get_cost enc stats p prompt query content response).1.2 : Rat)
    ∧ get_max_cost enc stats p prompt query content =
        get_cost enc stats p prompt query content none := by
  cases prompt <;> cases response <;>
    exact ⟨rfl, rfl, rfl, rfl⟩

/-- C3: with the same tier, a response no longer than `max_tokens`, and
nonnegative per-token prices, the max-cost estimate dominates the realized
cost. -/
theorem get_max_cost_ge_get_cost (enc : String → String → Nat)
    (stats : String → ModelStats) (p : ParamsView) (prompt : Option String)
    (query content response : String)
    (hresp : enc p.model response ≤ p.max_tokens)
    (hin : 0 ≤ (stats p.model).input_cost_per_token)
    (hout : 0 ≤ (stats p.model).output_cost_per_token) :
    (get_cost enc stats p prompt query content (some response)).2 ≤
      (get_max_cost enc stats p prompt query content).2 := by
  unfold get_max_cost get_cost
  cases prompt <;>
  · simp only []
    apply add_le_add_left
    apply mul_le_mul_of_nonneg_left _ hout
    exact_mod_cast hresp

/-- Witness for C3 at a concrete input. -/
theorem get_max_cost_ge_get_cost_witness :
    enc0 "gpt-4" "ans" ≤ (1000 : Nat)
    ∧ 0 ≤ (stats0 "gpt-4").input_cost_per_token
    ∧ 0 ≤ (stats0 "gpt-4").output_cost_per_token
    ∧ (get_cost enc0 stats0 ⟨"gpt-4", 1000⟩ (some "p") "q" "c" (some "ans")).2 ≤
        (get_max_cost enc0 stats0 ⟨"gpt-4", 1000⟩ (some "p") "q" "c").2 :=
  ⟨by decide, by decide, by decide,
   get_max_cost_ge_get_cost enc0 stats0 ⟨"gpt-4", 1000⟩ (some "p") "q" "c" "ans"
     (by decide) (by decide) (by decide)⟩

lemma getMessages_setModel (w : World) (m : String) :
    getMessages (setModel w m) = getMessages w := rfl

lemma usesDefault_setModel (w : World) (m : String) :
    (setModel w m).sess.usesDefaultList = w.sess.usesDefaultList := rfl

lemma getMessages_appendMessages (w : World) (ms : List Message) :
    getMessages (appendMessages w ms) = getMessages w ++ ms := by
  unfold getMessages appendMessages
  cases hb : w.sess.usesDefaultList <;> simp [hb]

lemma usesDefault_appendMessages (w : World) (ms : List Message) :
    (appendMessages w ms).sess.usesDefaultList = w.sess.usesDefaultList := by
  unfold appendMessages
  cases hb : w.sess.usesDefaultList <;> simp [hb]

lemma genStep_spec (enc : String → String → Nat) (stats : String → ModelStats)
    (complete : Invocation → String) (prompt : Option String)
    (queries contents : List String) (idx : Nat) (q c : String) (st st' : GenState)
    (h : genStep enc stats complete prompt queries contents idx q c st = .ok st') :
    getMessages st'.world = getMessages st.world ++
      [⟨"system", prompt.getD DEFAULT_PROMPT⟩,
       ⟨"user", "Here is some context : " ++ c⟩,
       ⟨"user", "Complete the following task: " ++ q⟩]
    ∧ st'.world.sess.usesDefaultList = st.world.sess.usesDefaultList
    ∧ (∃ cq, st'.spends = st.spends ++ [cq] ∧ st'.cost = st.cost + cq
        ∧ st'.budget = st.budget - cq)
    ∧ st'.results.length = st.results.length + 1
    ∧ st'.models.length = st.models.length + 1
    ∧ (∃ inv, st'.invocations = st.invocations ++ [inv]
        ∧ inv.messages = getMessages st'.world) := by
  unfold genStep at h
  revert h
  cases hms : model_selection enc stats st.world.sess.max_tokens st.world.sess.model
      idx prompt queries contents st.cost st.budget with
  | error e => intro h; cases h
  | ok sel =>
    intro h
    cases h
    refine ⟨?_, ?_, ⟨_, rfl, rfl, rfl⟩, ?_, ?_, ⟨_, rfl, rfl⟩⟩
    · show getMessages (appendMessages (setModel (setModel st.world sel.2) sel.1) _) = _
      rw [getMessages_appendMessages, getMessages_setModel, getMessages_setModel]
    · show (appendMessages (setModel (setModel st.world sel.2) sel.1) _).sess.usesDefaultList = _
      rw [usesDefault_appendMessages, usesDefault_setModel, usesDefault_setModel]
    · simp
    · simp

lemma genLoop_spec (enc : String → String → Nat) (stats : String → ModelStats)
    (complete : Invocation → String) (prompt : Option String)
    (queries contents : List String) :
    ∀ (pairs : List (String × String)) (idx : Nat) (st st' : GenState),
      genLoop enc stats complete prompt queries contents pairs idx st = .ok st' →
      (∃ ds, st'.spends = st.spends ++ ds ∧ ds.length = pairs.length
        ∧ st'.cost = st.cost + ds.sum ∧ st'.budget = st.budget - ds.sum)
      ∧ (∃ extra, getMessages st'.world = getMessages st.world ++ extra
          ∧ extra.length = 3 * pairs.length)
      ∧ st'.world.sess.usesDefaultList = st.world.sess.usesDefaultList
      ∧ st'.results.length = st.results.length + pairs.length
      ∧ st'.models.length = st.models.length + pairs.length := by
  intro pairs
  induction pairs with
  | nil =>
    intro idx st st' h
    cases h
    exact ⟨⟨[], by simp, rfl, by simp, by simp⟩, ⟨[], by simp, rfl⟩, rfl, rfl, rfl⟩
  | cons p rest ih =>
    intro idx st st' h
    obtain ⟨q, c⟩ := p
    unfold genLoop at h
    revert h
    cases hstep : genStep enc stats complete prompt queries contents idx q c st with
    | error e => intro h; cases h
    | ok st1 =>
      intro h
      obtain ⟨⟨ds, hds, hdsl, hcost, hbud⟩, ⟨extra, hex, hexl⟩, hdef, hres, hmod⟩ :=
        ih (idx + 1) st1 st' h
      obtain ⟨hmsg1, hdef1, ⟨cq, hsp1, hc1, hb1⟩, hr1, hm1, _⟩ :=
        genStep_spec enc stats complete prompt queries contents idx q c st st1 hstep
      refine ⟨⟨cq :: ds, ?_, ?_, ?_, ?_⟩,
        ⟨[⟨"system", prompt.getD DEFAULT_PROMPT⟩,
          ⟨"user", "Here is some context : " ++ c⟩,
          ⟨"user", "Complete the following task: " ++ q⟩] ++ extra, ?_, ?_⟩, ?_, ?_, ?_⟩
      · rw [hds, hsp1, List.append_assoc]
        rfl
      · simp [hdsl]
      · rw [hcost, hc1, List.sum_cons]
        ring
      · rw [hbud, hb1, List.sum_cons]
        ring
      · rw [hex, hmsg1, List.append_assoc]
      · simp only [List.length_append, hexl, List.length_cons, List.length_nil]
        omega
      · rw [hdef, hdef1]
      · simp only [List.length_cons]
        omega
      · simp only [List.length_cons]
        omega

lemma genLoop_ok (enc : String → String → Nat) (stats : String → ModelStats)
    (complete : Invocation → String) (prompt : Option String)
    (queries contents : List String) (hlen : queries.length ≤ contents.length) :
    ∀ (pairs : List (String × String)) (idx : Nat) (st : GenState),
      idx + pairs.length ≤ queries.length →
      ∃ st', genLoop enc stats complete prompt queries contents pairs idx st = .ok st' := by
  intro pairs
  induction pairs with
  | nil => intro idx st _; exact ⟨st, rfl⟩
  | cons p rest ih =>
    intro idx st hle
    obtain ⟨q, c⟩ := p
    simp only [List.length_cons] at hle
    have hq : idx < queries.length := by omega
    have hc : idx < contents.length := lt_of_lt_of_le hq hlen
    have hdrop : (queries.drop (idx + 1)).length ≤ (contents.drop (idx + 1)).length := by
      simp only [List.length_drop]
      omega
    have hr := sumRestMax_eq_restCostSum enc stats st.world.sess.max_tokens
      (queries.drop (idx + 1)) (contents.drop (idx + 1)) hdrop
    obtain ⟨mf, hmf⟩ := msGo_eq_firstPassing enc stats st.world.sess.max_tokens prompt
      (getAt queries idx) (getAt contents idx) queries contents idx st.budget _ hr
      MODEL_CHOICES st.world.sess.model
    have hms : ∃ res, model_selection enc stats st.world.sess.max_tokens
        st.world.sess.model idx prompt queries contents st.cost st.budget = .ok res := by
      unfold model_selection
      rw [pyGet_ok queries idx hq, pyGet_ok contents idx hc]
      exact ⟨_, hmf⟩
    obtain ⟨res, hms⟩ := hms
    have hstep : ∃ st1, genStep enc stats complete prompt queries contents idx q c st = .ok st1 := by
      unfold genStep
      rw [hms]
      exact ⟨_, rfl⟩
    obtain ⟨st1, hst1⟩ := hstep
    obtain ⟨st', hst'⟩ := ih (idx + 1) st1 (by omega)
    refine ⟨st', ?_⟩
    unfold genLoop
    rw [hst1]
    exact hst'

lemma setup_not_assertion (key : String) (envKey : Option String)
    (kw : SetupKwargs) (defMsgs : List Message)
    (hne : ¬ (if key.length = 0 then envKey.getD "" else key).length = 0) :
    setup key envKey kw defMsgs ≠ .error PyError.assertionError := by
  unfold setup
  rw [if_neg hne]
  by_cases hx : kw.extraKeys ≠ []
  · rw [if_pos hx]
    intro h
    exact absurd (Except.error.inj h) (by decide)
  · rw [if_neg hx]
    intro h
    cases h

/-- C6: each processed query appends exactly one system message and two
user messages to the session's message list, leaving all earlier entries
in place as a prefix, and the provider is invoked with the full
cumulative message list. -/
theorem generate_appends_three_messages (enc : String → String → Nat)
    (stats : String → ModelStats) (complete : Invocation → String)
    (prompt : Option String) (queries contents : List String) (idx : Nat)
    (q c : String) (st st' : GenState)
    (h : genStep enc stats complete prompt queries contents idx q c st = .ok st') :
    getMessages st'.world = getMessages st.world ++
      [⟨"system", prompt.getD DEFAULT_PROMPT⟩,
       ⟨"user", "Here is some context : " ++ c⟩,
       ⟨"user", "Complete the following task: " ++ q⟩]
    ∧ ∃ inv, st'.invocations = st.invocations ++ [inv]
        ∧ inv.messages = getMessages st'.world :=
  ⟨(genStep_spec enc stats complete prompt queries contents idx q c st st' h).1,
   (genStep_spec enc stats complete prompt queries contents idx q c st st' h).2.2.2.2.2⟩

/-- Witness for C6 at a concrete input. -/
theorem generate_appends_three_messages_witness :
    getMessages c6st.world = getMessages st0.world ++
      [Message.mk "system" ((some "p").getD DEFAULT_PROMPT),
       Message.mk "user" ("Here is some context : " ++ "c1"),
       Message.mk "user" ("Complete the following task: " ++ "q1")]
    ∧ ∃ inv, c6st.invocations = st0.invocations ++ [inv]
        ∧ inv.messages = getMessages c6st.world :=
  generate_appends_three_messages enc0 stats0 complete0 (some "p") ["q1"] ["c1"]
    0 "q1" "c1" st0 c6st rfl

/-- C8: at the end of a successful `generate` call, the running cost
equals the sum of the realized per-query costs (the `get_cost` values
recorded in `spends`), the remaining budget equals the initial budget
minus that sum, and remaining budget plus cumulative spend equals the
initial budget exactly. -/
theorem budget_accounting (enc : String → String → Nat) (stats : String → ModelStats)
    (complete : Invocation → String) (w : World) (bstr : String) (n : Int)
    (queries contents : List String) (prompt : Option String)
    (rs ms : List String) (st : GenState)
    (hb : pyInt bstr = some n)
    (hrun : generate enc stats complete w (some bstr) queries contents prompt =
      .ok (rs, ms, st)) :
    st.cost = st.spends.sum ∧ st.budget = (n : Rat) - st.spends.sum
    ∧ st.budget + st.cost = (n : Rat) := by
  unfold generate at hrun
  dsimp only at hrun
  rw [hb] at hrun
  dsimp only at hrun
  revert hrun
  cases hloop : genLoop enc stats complete prompt queries contents
      (queries.zip contents) 0 ⟨w, (n : Rat), 0, [], [], [], []⟩ with
  | error e => intro hrun; cases hrun
  | ok stL =>
    intro hrun
    cases hrun
    obtain ⟨⟨ds, hds, hdsl, hcost, hbud⟩, _, _, _, _⟩ :=
      genLoop_spec enc stats complete prompt queries contents
        (queries.zip contents) 0 _ st hloop
    refine ⟨?_, ?_, ?_⟩
    · rw [hcost, hds]
      simp
    · rw [hbud, hds]
      simp
    · rw [hbud, hcost]
      ring

/-- Witness for C8 at a concrete input. -/
theorem budget_accounting_witness :
    pyInt "1000" = some 1000
    ∧ (c8st.cost = c8st.spends.sum
      ∧ c8st.budget = ((1000 : Int) : Rat) - c8st.spends.sum
      ∧ c8st.budget + c8st.cost = ((1000 : Int) : Rat)) :=
  ⟨rfl, budget_accounting enc0 stats0 complete0 w0 "1000" 1000 ["q1"] ["c1"] none
    c8res c8models c8st rfl rfl⟩

/-- C9: `setup` fails with the credential assertion error, before the
provider client is created, exactly when the explicit key is empty and
the environment fallback is absent or empty; with a non-empty key from
either source it passes the credential check and reaches client
creation. -/
theorem setup_credential_check (key : String) (envKey : Option String)
    (kw : SetupKwargs) (defMsgs : List Message) :
    ((key.length = 0 ∧ (envKey.getD "").length = 0) ↔
      setup key envKey kw defMsgs = .error PyError.assertionError)
    ∧ ((key.length = 0 ∧ (envKey.getD "").length = 0) ↔
      setupReachesClient key envKey = false) := by
  constructor
  · constructor
    · rintro ⟨hk, he⟩
      unfold setup
      rw [if_pos (by rw [if_pos hk]; exact he)]
    · intro hs
      by_cases hk : key.length = 0
      · by_cases he : (envKey.getD "").length = 0
        · exact ⟨hk, he⟩
        · exact absurd hs (setup_not_assertion key envKey kw defMsgs
            (by rw [if_pos hk]; exact he))
      · exact absurd hs (setup_not_assertion key envKey kw defMsgs
          (by rw [if_neg hk]; exact hk))
  · constructor
    · rintro ⟨hk, he⟩
      unfold setupReachesClient
      rw [decide_eq_false_iff_not]
      rw [if_pos hk]
      exact fun hne => hne he
    · intro hs
      unfold setupReachesClient at hs
      rw [decide_eq_false_iff_not] at hs
      have hlen : (if key.length = 0 then envKey.getD "" else key).length = 0 :=
        not_ne_iff.mp hs
      by_cases hk : key.length = 0
      · rw [if_pos hk] at hlen
        exact ⟨hk, hlen⟩
      · rw [if_neg hk] at hlen
        exact absurd hlen hk

/-- C4 (code bug): `generate` parses the `OPENAI_BUDGET` value with
Python `int`, so the spec's fractional budget `$0.0001` makes the call
raise ValueError before any query is processed (and an absent value
raises TypeError), instead of proceeding to the most-expensive-tier
fallback. -/
theorem generate_fractional_budget_raises :
    generate enc0 stats0 complete0 w0 (some "0.0001") ["q"] ["c"] none =
      .error PyError.valueError
    ∧ generate enc0 stats0 complete0 w0 none ["q"] ["c"] none =
      .error PyError.typeError :=
  ⟨rfl, rfl⟩

/-- C5 counterexample: after one successful `generate` call on a fresh
default session (initial message list empty), the state a second call
starts from still contains the system message appended by the first
call. -/
theorem second_generate_starts_with_prior_messages :
    getMessages w0 = []
    ∧ exceptIsOk c5run = true
    ∧ Message.mk "system" "p" ∈ getMessages c5world := by
  refine ⟨rfl, rfl, ?_⟩
  rw [show getMessages c5world =
      [Message.mk "system" "p",
       Message.mk "user" ("Here is some context : " ++ "c1"),
       Message.mk "user" ("Complete the following task: " ++ "q1")] from rfl]
  exact List.mem_cons_self _ _

/-- C5 amended: the message list is not per-invocation: a successful
`generate` call on a session aliasing the module default list leaves the
messages it appended in the session state (so a second call starts with
them), and a fresh session set up without a messages override aliases the
same module-level list and also starts with them. -/
theorem messages_persist_across_calls (enc : String → String → Nat)
    (stats : String → ModelStats) (complete : Invocation → String) (w : World)
    (bstr : String) (qs cs : List String) (prompt : Option String)
    (rs ms : List String) (st : GenState)
    (hdef : w.sess.usesDefaultList = true)
    (hq : qs ≠ []) (hc : cs ≠ [])
    (hrun : generate enc stats complete w (some bstr) qs cs prompt = .ok (rs, ms, st)) :
    (∃ extra, extra ≠ [] ∧ getMessages st.world = getMessages w ++ extra)
    ∧ ∀ (k : String) (ek : Option String) (kw : SetupKwargs) (w2 : World),
        kw.messages = none → setup k ek kw st.world.defaultMsgs = .ok w2 →
        getMessages w2 = getMessages st.world := by
  unfold generate at hrun
  dsimp only at hrun
  revert hrun
  cases hpi : pyInt bstr with
  | none => intro hrun; cases hrun
  | some b =>
    dsimp only
    cases hloop : genLoop enc stats complete prompt qs cs (qs.zip cs) 0
        ⟨w, (b : Rat), 0, [], [], [], []⟩ with
    | error e => intro hrun; cases hrun
    | ok stL =>
      intro hrun
      cases hrun
      obtain ⟨_, ⟨extra, hex, hexl⟩, hdefp, _, _⟩ :=
        genLoop_spec enc stats complete prompt qs cs (qs.zip cs) 0 _ st hloop
      have hzip : 0 < (qs.zip cs).length := by
        rw [List.length_zip]
        have hq1 : 0 < qs.length := List.length_pos.mpr hq
        have hc1 : 0 < cs.length := List.length_pos.mpr hc
        omega
      constructor
      · have hepos : 0 < extra.length := by
          rw [hexl]
          omega
        exact ⟨extra, List.length_pos.mp hepos, hex⟩
      · intro k ek kw w2 hkw hsetup
        unfold setup at hsetup
        revert hsetup
        by_cases h1 : (if k.length = 0 then ek.getD "" else k).length = 0
        · rw [if_pos h1]
          intro hsetup
          cases hsetup
        · rw [if_neg h1]
          by_cases h2 : kw.extraKeys ≠ []
          · rw [if_pos h2]
            intro hsetup
            cases hsetup
          · rw [if_neg h2]
            intro hsetup
            cases hsetup
            simp only [getMessages, hkw, Option.isNone_none, if_true, hdefp, hdef]

/-- Witness for the amended C5 at a concrete input. -/
theorem messages_persist_across_calls_witness :
    w0.sess.usesDefaultList = true
    ∧ (["q2"] : List String) ≠ [] ∧ (["c2"] : List String) ≠ []
    ∧ (∃ extra, extra ≠ [] ∧ getMessages c5ast.world = getMessages w0 ++ extra)
    ∧ getMessages c5aw2 = getMessages c5ast.world :=
  have h := messages_persist_across_calls enc0 stats0 complete0 w0 "1000"
    ["q2"] ["c2"] (some "p") c5ares c5amodels c5ast rfl (by decide) (by decide) rfl
  ⟨rfl, by decide, by decide, h.1, h.2 "k" none kw0 c5aw2 rfl rfl⟩

/-- C10 counterexample: with more queries than (non-empty) contents, the
very first `model_selection` call indexes `contents` out of range, so
`generate` raises IndexError instead of processing `min` pairs. -/
theorem generate_query_surplus_raises :
    generate enc0 stats0 complete0 w0 (some "1000") ["a", "b"] ["c"] none =
      .error PyError.indexError :=
  rfl

/-- C10 amended: when `contents` is at least as long as `queries` (or is
empty), `generate` raises no mismatch error and processes exactly
`min(len(queries), len(contents))` pairs — both returned sequences have
that length; with a non-empty `contents` shorter than `queries`, the
first tier selection raises IndexError (see the counterexample). -/
theorem generate_truncates_to_min (enc : String → String → Nat)
    (stats : String → ModelStats) (complete : Invocation → String) (w : World)
    (bstr : String) (n : Int) (queries contents : List String)
    (prompt : Option String)
    (hb : pyInt bstr = some n)
    (hlen : queries.length ≤ contents.length ∨ contents = []) :
    ∃ rs ms st, generate enc stats complete w (some bstr) queries contents prompt =
        .ok (rs, ms, st)
      ∧ rs.length = min queries.length contents.length
      ∧ ms.length = min queries.length contents.length := by
  unfold generate
  dsimp only
  rw [hb]
  dsimp only
  rcases hlen with hle | hnil
  · obtain ⟨st', hst'⟩ := genLoop_ok enc stats complete prompt queries contents hle
      (queries.zip contents) 0 ⟨w, (n : Rat), 0, [], [], [], []⟩
      (by rw [List.length_zip]; omega)
    rw [hst']
    obtain ⟨_, _, _, hres, hmod⟩ :=
      genLoop_spec enc stats complete prompt queries contents
        (queries.zip contents) 0 _ st' hst'
    refine ⟨st'.results, st'.models, st', rfl, ?_, ?_⟩
    · rw [hres]
      simp [List.length_zip]
    · rw [hmod]
      simp [List.length_zip]
  · subst hnil
    rw [List.zip_nil_right]
    refine ⟨[], [], _, rfl, ?_, ?_⟩ <;> simp

/-- Witness for the amended C10 at a concrete input (a mismatched batch
with more contents than queries). -/
theorem generate_truncates_to_min_witness :
    pyInt "5" = some 5
    ∧ ((["a"] : List String).length ≤ (["x", "y"] : List String).length
      ∨ (["x", "y"] : List String) = [])
    ∧ ∃ rs ms st, generate enc0 stats0 complete0 w0 (some "5") ["a"] ["x", "y"] none =
        .ok (rs, ms, st)
      ∧ rs.length = min (["a"] : List String).length (["x", "y"] : List String).length
      ∧ ms.length = min (["a"] : List String).length (["x", "y"] : List String).length :=
  ⟨rfl, Or.inl (by decide),
   generate_truncates_to_min enc0 stats0 complete0 w0 "5" 5 ["a"] ["x", "y"] none
     rfl (Or.inl (by decide))⟩
